import Mathlib

/-!
Verification of the native emscripten shim
(`src/PdfPixel.PdfPanel.Web/Native/emscripten.c`).

The C file is a thin layer over the emscripten runtime: it routes callables
to the main browser ("owner") thread either synchronously or asynchronously,
and wraps the emscripten WebGL context functions.  We embed the shim's
functions line-by-line; the emscripten runtime primitives they call
(`emscripten_is_main_browser_thread`, `emscripten_sync_run_in_main_runtime_thread`,
`emscripten_async_run_in_main_runtime_thread`, the WebGL context API and the
DOM canvas) are modelled as explicit state transformers following their
documented contracts, with an event trace recording enqueue / execute /
signal / return steps so that ordering properties can be stated.
-/

/-- Thread identifiers.  Thread 0 is the main browser thread. -/
abbrev ThreadId := Nat

/-- The single main browser thread (the "owner" thread of the spec). -/
def ownerThreadId : ThreadId := 0

/-- Models `emscripten_is_main_browser_thread()`: true exactly on the main
browser thread. -/
def emscripten_is_main_browser_thread (t : ThreadId) : Bool :=
  t == ownerThreadId

/-- The `EM_FUNC_SIG_*` signature tags used by the shim. -/
inductive EmFuncSig where
  | sig_v    -- `EM_FUNC_SIG_V`: void(void)
  | sig_vi   -- `EM_FUNC_SIG_VI`: void(int32)
  | sig_vj   -- `EM_FUNC_SIG_VJ`: void(int64)
  deriving DecidableEq, Repr

/-- Bit width of the single argument carried by a signature. -/
def sigArgWidth : EmFuncSig → Nat
  | .sig_v  => 0
  | .sig_vi => 32
  | .sig_vj => 64

/-- `EM_FUNC_SIG_VPTR` from the shim: `EM_FUNC_SIG_VJ` when compiled for
wasm64 (`__wasm64__`), `EM_FUNC_SIG_VI` otherwise. -/
def EM_FUNC_SIG_VPTR (wasm64 : Bool) : EmFuncSig :=
  if wasm64 then .sig_vj else .sig_vi

/-- Bit width of `em_ptr_int_t` from the shim: `int64_t` on wasm64,
`int32_t` on wasm32. -/
def em_ptr_int_width (wasm64 : Bool) : Nat :=
  if wasm64 then 64 else 32

/-- A value representable as `em_ptr_int_t` for the given target. -/
def emPtrIntInRange (wasm64 : Bool) (v : Int) : Prop :=
  -(2 ^ (em_ptr_int_width wasm64 - 1)) ≤ v ∧ v < 2 ^ (em_ptr_int_width wasm64 - 1)

instance (wasm64 : Bool) (v : Int) : Decidable (emPtrIntInRange wasm64 v) := by
  unfold emPtrIntInRange; infer_instance

/-- A dispatch request handed to the owner thread's run queue.  Callables are
identified by an abstract code `func`; `arg` is the optional pointer-sized
payload. -/
structure Request where
  func   : Nat
  sig    : EmFuncSig
  arg    : Option Int
  caller : ThreadId
  deriving DecidableEq, Repr

/-- Observable events of a dispatch history. -/
inductive Event where
  /-- The request was placed on the owner thread's run queue. -/
  | enqueued (r : Request)
  /-- The callable `func` ran (to completion) on `onThread` with `arg`. -/
  | executed (onThread : ThreadId) (func : Nat) (arg : Option Int)
  /-- The owner thread signaled completion of `r` to its submitter. -/
  | signaled (r : Request)
  /-- The dispatch call returned control to `caller`. -/
  | returned (caller : ThreadId)
  deriving DecidableEq, Repr

/-- Dispatcher state: the owner thread's run queue plus the event trace. -/
structure Sys where
  queue : List Request
  trace : List Event
  deriving DecidableEq, Repr

/-- Running `func(arg)` directly on the calling thread (the `func();` /
`func(arg);` branch of the shim). -/
def callInPlace (t : ThreadId) (func : Nat) (arg : Option Int) (s : Sys) : Sys :=
  { s with trace := s.trace ++ [.executed t func arg] }

/-- Models the emscripten runtime primitive
`emscripten_sync_run_in_main_runtime_thread(sig, func, arg...)` per its
documented contract: the request is placed on the main runtime thread's run
queue, the calling thread blocks, the main thread executes the callable and
signals completion, and only then does the call return.  The big-step result
is the state at the moment the call returns: the request has been consumed
from the queue and the trace records enqueue, execution on the main thread,
the completion signal, and the return, in that order. -/
def emscripten_sync_run_in_main_runtime_thread (caller : ThreadId) (sig : EmFuncSig)
    (func : Nat) (arg : Option Int) (s : Sys) : Sys :=
  let r : Request := ⟨func, sig, arg, caller⟩
  { queue := s.queue
    trace := s.trace ++
      [.enqueued r, .executed ownerThreadId func arg, .signaled r, .returned caller] }

/-- Models the emscripten runtime primitive
`emscripten_async_run_in_main_runtime_thread(sig, func, arg)` per its
documented contract: the request is appended to the main runtime thread's run
queue and the call returns immediately, without waiting for execution. -/
def emscripten_async_run_in_main_runtime_thread_prim (caller : ThreadId) (sig : EmFuncSig)
    (func : Nat) (arg : Option Int) (s : Sys) : Sys :=
  let r : Request := ⟨func, sig, arg, caller⟩
  { queue := s.queue ++ [r]
    trace := s.trace ++ [.enqueued r, .returned caller] }

/-- `dotnet_sync_main_thread(func)` from the shim: run `func()` on the browser
main thread and block until it returns; if already on the main thread, call
`func()` in place. -/
def dotnet_sync_main_thread (caller : ThreadId) (func : Nat) (s : Sys) : Sys :=
  if emscripten_is_main_browser_thread caller then
    callInPlace caller func none s
  else
    emscripten_sync_run_in_main_runtime_thread caller .sig_v func none s

/-- `dotnet_sync_main_thread_arg(func, arg)` from the shim: like
`dotnet_sync_main_thread` but forwarding one `em_ptr_int_t` argument, using
`EM_FUNC_SIG_VPTR` for the cross-thread case. -/
def dotnet_sync_main_thread_arg (wasm64 : Bool) (caller : ThreadId) (func : Nat)
    (arg : Int) (s : Sys) : Sys :=
  if emscripten_is_main_browser_thread caller then
    callInPlace caller func (some arg) s
  else
    emscripten_sync_run_in_main_runtime_thread caller (EM_FUNC_SIG_VPTR wasm64)
      func (some arg) s

/-- `dotnet_async_run_in_main_runtime_thread(func, arg)` from the shim: post
`func(arg)` to the main thread and return immediately; in place if already on
the main thread. -/
def dotnet_async_run_in_main_runtime_thread (wasm64 : Bool) (caller : ThreadId)
    (func : Nat) (arg : Int) (s : Sys) : Sys :=
  if emscripten_is_main_browser_thread caller then
    callInPlace caller func (some arg) s
  else
    emscripten_async_run_in_main_runtime_thread_prim caller (EM_FUNC_SIG_VPTR wasm64)
      func (some arg) s

/-- One step of the owner thread's event loop: dequeue the head request,
execute its callable on the owner thread, and signal completion. -/
def service1 (s : Sys) : Sys :=
  match s.queue with
  | [] => s
  | r :: rest =>
      { queue := rest
        trace := s.trace ++ [.executed ownerThreadId r.func r.arg, .signaled r] }

/-- `n` steps of the owner thread's event loop. -/
def serviceN : Nat → Sys → Sys
  | 0, s => s
  | n + 1, s => serviceN n (service1 s)

theorem service1_trace_mono (s : Sys) (e : Event) (h : e ∈ s.trace) :
    e ∈ (service1 s).trace := by
  unfold service1
  cases s.queue with
  | nil => exact h
  | cons r rest => simp [List.mem_append]; exact Or.inl h

theorem serviceN_trace_mono (n : Nat) (s : Sys) (e : Event) (h : e ∈ s.trace) :
    e ∈ (serviceN n s).trace := by
  induction n generalizing s with
  | zero => exact h
  | succ n ih => exact ih (service1 s) (service1_trace_mono s e h)

theorem serviceN_executes_aux (q : List Request) :
    ∀ s : Sys, s.queue = q → ∀ r ∈ q,
      Event.executed ownerThreadId r.func r.arg ∈ (serviceN q.length s).trace := by
  induction q with
  | nil => intro s _ r hr; cases hr
  | cons a rest ih =>
      intro s hq r hr
      have hs1 : service1 s =
          { queue := rest,
            trace := s.trace ++ [.executed ownerThreadId a.func a.arg, .signaled a] } := by
        unfold service1; rw [hq]
      simp only [List.length_cons, serviceN]
      rcases List.mem_cons.mp hr with heq | hmem
      · subst heq
        apply serviceN_trace_mono
        rw [hs1]; simp
      · exact ih (service1 s) (by rw [hs1]) r hmem

/-- Every request on the queue is executed (on the owner thread, with its
exact argument) once the owner thread has serviced the whole queue. -/
theorem serviceN_executes (s : Sys) (r : Request) (h : r ∈ s.queue) :
    Event.executed ownerThreadId r.func r.arg ∈ (serviceN s.queue.length s).trace :=
  serviceN_executes_aux s.queue s rfl r h

/-! ## WebGL context and canvas model -/

/-- `EMSCRIPTEN_RESULT` error codes used by the model. -/
def EMSCRIPTEN_RESULT_SUCCESS : Int := 0
def EMSCRIPTEN_RESULT_INVALID_PARAM : Int := -5
def EMSCRIPTEN_RESULT_UNKNOWN_TARGET : Int := -4
def EMSCRIPTEN_RESULT_FAILED : Int := -6

/-- `emscripten_webgl_context_proxy_mode`: how a context created on the main
thread is exposed to other threads. -/
inductive ProxyMode where
  | disallow   -- EMSCRIPTEN_WEBGL_CONTEXT_PROXY_DISALLOW
  | fallback   -- EMSCRIPTEN_WEBGL_CONTEXT_PROXY_FALLBACK
  | always     -- EMSCRIPTEN_WEBGL_CONTEXT_PROXY_ALWAYS
  deriving DecidableEq, Repr

/-- `EmscriptenWebGLContextAttributes` (the fields the shim touches, plus the
remaining documented fields so that the init defaults are complete). -/
structure EmscriptenWebGLContextAttributes where
  alpha : Int
  depth : Int
  stencil : Int
  antialias : Int
  premultipliedAlpha : Int
  preserveDrawingBuffer : Int
  powerPreference : Int
  failIfMajorPerformanceCaveat : Int
  majorVersion : Int
  minorVersion : Int
  enableExtensionsByDefault : Int
  explicitSwapControl : Int
  proxyContextToMainThread : ProxyMode
  renderViaOffscreenBackBuffer : Int
  deriving DecidableEq, Repr

/-- Models `emscripten_webgl_init_context_attributes(&attrs)`: fills the
attribute record with the documented emscripten defaults. -/
def emscripten_webgl_init_context_attributes : EmscriptenWebGLContextAttributes where
  alpha := 1
  depth := 1
  stencil := 0
  antialias := 1
  premultipliedAlpha := 1
  preserveDrawingBuffer := 0
  powerPreference := 0
  failIfMajorPerformanceCaveat := 0
  majorVersion := 1
  minorVersion := 0
  enableExtensionsByDefault := 1
  explicitSwapControl := 0
  proxyContextToMainThread := .disallow
  renderViaOffscreenBackBuffer := 0

/-- A DOM canvas: backing-store size, CSS size, and whether the backing store
was cleared (setting `canvas.width`/`canvas.height` clears the content). -/
structure Canvas where
  width : Int
  height : Int
  styleWidth : Rat
  styleHeight : Rat
  contentCleared : Bool
  deriving DecidableEq, Repr

/-- A live WebGL context: the canvas it was created on, its attributes, and
the size of the backing surface captured at creation time. -/
structure WebGLContext where
  canvasId : String
  attrs : EmscriptenWebGLContextAttributes
  backingWidth : Int
  backingHeight : Int
  deriving DecidableEq, Repr

/-- Association-list lookup (first match, like `document.querySelector` and
the emscripten handle table). -/
def alookup {α β : Type} [DecidableEq α] : List (α × β) → α → Option β
  | [], _ => none
  | (k, v) :: rest, k' => if k = k' then some v else alookup rest k'

/-- Association-list update: replace the first binding of `k`, or append a
new binding if none exists. -/
def aset {α β : Type} [DecidableEq α] : List (α × β) → α → β → List (α × β)
  | [], k, v => [(k, v)]
  | (k', w) :: rest, k, v =>
      if k' = k then (k, v) :: rest else (k', w) :: aset rest k v

theorem alookup_aset {α β : Type} [DecidableEq α] (l : List (α × β)) (k : α) (v : β) :
    alookup (aset l k v) k = some v := by
  induction l with
  | nil => simp [aset, alookup]
  | cons p rest ih =>
      obtain ⟨k', w⟩ := p
      by_cases h : k' = k
      · simp [aset, h, alookup]
      · simp [aset, h, alookup, ih]

theorem alookup_aset_ne {α β : Type} [DecidableEq α] (l : List (α × β)) (k k' : α)
    (v : β) (hne : k ≠ k') :
    alookup (aset l k v) k' = alookup l k' := by
  induction l with
  | nil => simp [aset, alookup, hne]
  | cons p rest ih =>
      obtain ⟨k0, w⟩ := p
      by_cases h : k0 = k
      · subst h
        simp [aset, alookup, hne]
      · simp [aset, h, alookup, ih]

/-- The browser/emscripten environment visible to the WebGL and canvas calls:
the DOM canvases (keyed by selector), the table of live contexts (keyed by
handle), each thread's current context handle (0 = none), the next fresh
handle, and the device-pixel-ratio / visual-viewport scale of the window. -/
structure WebEnv where
  canvases : List (String × Canvas)
  contexts : List (Int × WebGLContext)
  current : List (ThreadId × Int)
  nextHandle : Int
  dpr : Rat
  visualViewportScale : Option Rat
  deriving DecidableEq, Repr

/-- Models the emscripten runtime primitive `emscripten_webgl_create_context`
per its documented contract: fails with a negative `EMSCRIPTEN_RESULT` code
when the target canvas does not exist or the requested configuration is
unsupported (WebGL major version other than 1 or 2); otherwise allocates a
fresh handle, records the context (capturing the canvas's current backing
size as the drawing-buffer size), and returns the handle. -/
def emscripten_webgl_create_context (canvasId : String)
    (attrs : EmscriptenWebGLContextAttributes) (env : WebEnv) : Int × WebEnv :=
  if attrs.majorVersion < 1 ∨ 2 < attrs.majorVersion then
    (EMSCRIPTEN_RESULT_INVALID_PARAM, env)
  else
    match alookup env.canvases canvasId with
    | none => (EMSCRIPTEN_RESULT_UNKNOWN_TARGET, env)
    | some c =>
        let h := env.nextHandle
        (h, { env with
                contexts := (h, ⟨canvasId, attrs, c.width, c.height⟩) :: env.contexts
                nextHandle := h + 1 })

/-- Models the emscripten runtime primitive `emscripten_webgl_get_current_context`
per its documented contract: a purely thread-local read of the calling
thread's current context handle (0 if none). -/
def emscripten_webgl_get_current_context (t : ThreadId) (env : WebEnv) : Int :=
  (alookup env.current t).getD 0

/-- Models the emscripten runtime primitive `emscripten_webgl_make_context_current`
per its documented contract: handle 0 deactivates the calling thread's current
context; an unknown handle fails with a negative code; a context whose proxy
mode forbids cross-thread use fails with a negative code when activated from
a thread other than the main browser thread; otherwise the handle becomes the
calling thread's (thread-local) current context.  Other threads' current
context slots are never touched. -/
def emscripten_webgl_make_context_current_prim (t : ThreadId) (h : Int)
    (env : WebEnv) : Int × WebEnv :=
  if h = 0 then
    (EMSCRIPTEN_RESULT_SUCCESS, { env with current := aset env.current t 0 })
  else
    match alookup env.contexts h with
    | none => (EMSCRIPTEN_RESULT_INVALID_PARAM, env)
    | some ctx =>
        if emscripten_is_main_browser_thread t ∨
            ctx.attrs.proxyContextToMainThread ≠ ProxyMode.disallow then
          (EMSCRIPTEN_RESULT_SUCCESS, { env with current := aset env.current t h })
        else
          (EMSCRIPTEN_RESULT_FAILED, env)

/-- `dotnet_webgl_get_current_context()` from the shim. -/
def dotnet_webgl_get_current_context (t : ThreadId) (env : WebEnv) : Int :=
  emscripten_webgl_get_current_context t env

/-- `dotnet_webgl_make_context_current(ctx)` from the shim. -/
def dotnet_webgl_make_context_current (t : ThreadId) (ctx : Int)
    (env : WebEnv) : Int × WebEnv :=
  emscripten_webgl_make_context_current_prim t ctx env

/-- The attribute record built inside `dotnet_webgl_create_context`: init
defaults, then the five caller-controlled fields, then the fixed fields the
shim always sets. -/
def dotnet_webgl_context_attrs (alpha depth stencil antialias majorVersion : Int) :
    EmscriptenWebGLContextAttributes :=
  let attrs := emscripten_webgl_init_context_attributes
  { attrs with
      alpha := alpha
      depth := depth
      stencil := stencil
      antialias := antialias
      majorVersion := majorVersion
      minorVersion := 0
      enableExtensionsByDefault := 1
      renderViaOffscreenBackBuffer := 0
      explicitSwapControl := 0
      preserveDrawingBuffer := 1
      proxyContextToMainThread := .always }

/-- `dotnet_webgl_create_context(canvasId, alpha, depth, stencil, antialias,
majorVersion)` from the shim. -/
def dotnet_webgl_create_context (canvasId : String)
    (alpha depth stencil antialias majorVersion : Int) (env : WebEnv) : Int × WebEnv :=
  emscripten_webgl_create_context canvasId
    (dotnet_webgl_context_attrs alpha depth stencil antialias majorVersion) env

/-- `dpr * zoom` as computed by `dotnet_set_canvas_size_js`: JavaScript's
`window.devicePixelRatio || 1` falls back to 1 when `devicePixelRatio` is
falsy (0), and the zoom ternary falls back to 1 when `visualViewport` is
absent or its scale is falsy. -/
def devicePixelScale (env : WebEnv) : Rat :=
  (if env.dpr = 0 then 1 else env.dpr) *
    (match env.visualViewportScale with
     | some z => if z = 0 then 1 else z
     | none => 1)

/-- `dotnet_set_canvas_size_js(canvasId, width, height)` from the shim
(`EM_JS` body): look the canvas up with `document.querySelector`; if absent do
nothing; if present set `canvas.width`/`canvas.height` to the requested size
(which clears the backing store) and the CSS size to the requested size
divided by the device pixel scale. -/
def dotnet_set_canvas_size_js (canvasId : String) (width height : Int)
    (env : WebEnv) : WebEnv :=
  match alookup env.canvases canvasId with
  | none => env
  | some _ =>
      let dps := devicePixelScale env
      { env with
          canvases := aset env.canvases canvasId
            ⟨width, height, (width : Rat) / dps, (height : Rat) / dps, true⟩ }

/-- `dotnet_set_canvas_size(canvasId, width, height)` from the shim: forwards
to `dotnet_set_canvas_size_js`. -/
def dotnet_set_canvas_size (canvasId : String) (width height : Int)
    (env : WebEnv) : WebEnv :=
  dotnet_set_canvas_size_js canvasId width height env

/-! ## Claim theorems: affinity dispatcher -/

theorem getElem_append_offset {α : Type} (l L : List α) (k : Nat) :
    (l ++ L)[l.length + k]? = L[k]? := by
  rw [List.getElem?_append_right (Nat.le_add_right _ _)]
  simp

/-- C1: for every callable, `dotnet_sync_main_thread` /
`dotnet_sync_main_thread_arg` invoked on the owner (main browser) thread
executes the callable in place exactly once before returning — the state at
return extends the trace by exactly one execution event, on the calling
(owner) thread — and does not enqueue any request (the run queue is
unchanged). -/
theorem sync_on_owner_executes_in_place (wasm64 : Bool) (caller : ThreadId)
    (func : Nat) (arg : Int) (s : Sys)
    (h : emscripten_is_main_browser_thread caller = true) :
    caller = ownerThreadId ∧
    (dotnet_sync_main_thread caller func s).queue = s.queue ∧
    (dotnet_sync_main_thread caller func s).trace
      = s.trace ++ [Event.executed caller func none] ∧
    (dotnet_sync_main_thread_arg wasm64 caller func arg s).queue = s.queue ∧
    (dotnet_sync_main_thread_arg wasm64 caller func arg s).trace
      = s.trace ++ [Event.executed caller func (some arg)] := by
  have hc : caller = ownerThreadId := by
    simpa [emscripten_is_main_browser_thread] using h
  refine ⟨hc, ?_, ?_, ?_, ?_⟩ <;>
    simp [dotnet_sync_main_thread, dotnet_sync_main_thread_arg, h, callInPlace]

theorem sync_on_owner_executes_in_place_witness :
    emscripten_is_main_browser_thread 0 = true ∧
    ((0 : ThreadId) = ownerThreadId ∧
     (dotnet_sync_main_thread 0 1 ⟨[], []⟩).queue = [] ∧
     (dotnet_sync_main_thread 0 1 ⟨[], []⟩).trace
       = [] ++ [Event.executed 0 1 none] ∧
     (dotnet_sync_main_thread_arg false 0 1 5 ⟨[], []⟩).queue = [] ∧
     (dotnet_sync_main_thread_arg false 0 1 5 ⟨[], []⟩).trace
       = [] ++ [Event.executed 0 1 (some 5)]) :=
  ⟨rfl, sync_on_owner_executes_in_place false 0 1 5 ⟨[], []⟩ rfl⟩

/-- C2: a callable submitted via `dotnet_sync_main_thread` /
`dotnet_sync_main_thread_arg` from a worker thread is transferred (with its
single pointer-sized argument, if any) to the owner thread's run queue, the
owner thread executes it and signals completion, and the call returns to the
worker only after the execution: the trace at return records enqueue,
execution on the owner thread, completion signal and return in that order,
and in particular there are positions i < j with the execution at i and the
return at j. -/
theorem sync_from_worker_blocks_until_executed (wasm64 : Bool) (caller : ThreadId)
    (func : Nat) (arg : Int) (s : Sys)
    (h : emscripten_is_main_browser_thread caller = false) :
    ((dotnet_sync_main_thread caller func s).trace
       = s.trace ++
         [Event.enqueued ⟨func, .sig_v, none, caller⟩,
          Event.executed ownerThreadId func none,
          Event.signaled ⟨func, .sig_v, none, caller⟩,
          Event.returned caller] ∧
     (∃ i j : Nat, i < j ∧
       (dotnet_sync_main_thread caller func s).trace[i]?
         = some (Event.executed ownerThreadId func none) ∧
       (dotnet_sync_main_thread caller func s).trace[j]?
         = some (Event.returned caller))) ∧
    ((dotnet_sync_main_thread_arg wasm64 caller func arg s).trace
       = s.trace ++
         [Event.enqueued ⟨func, EM_FUNC_SIG_VPTR wasm64, some arg, caller⟩,
          Event.executed ownerThreadId func (some arg),
          Event.signaled ⟨func, EM_FUNC_SIG_VPTR wasm64, some arg, caller⟩,
          Event.returned caller] ∧
     (∃ i j : Nat, i < j ∧
       (dotnet_sync_main_thread_arg wasm64 caller func arg s).trace[i]?
         = some (Event.executed ownerThreadId func (some arg)) ∧
       (dotnet_sync_main_thread_arg wasm64 caller func arg s).trace[j]?
         = some (Event.returned caller))) := by
  have h1 : (dotnet_sync_main_thread caller func s).trace
      = s.trace ++
        [Event.enqueued ⟨func, .sig_v, none, caller⟩,
         Event.executed ownerThreadId func none,
         Event.signaled ⟨func, .sig_v, none, caller⟩,
         Event.returned caller] := by
    simp [dotnet_sync_main_thread, h, emscripten_sync_run_in_main_runtime_thread]
  have h2 : (dotnet_sync_main_thread_arg wasm64 caller func arg s).trace
      = s.trace ++
        [Event.enqueued ⟨func, EM_FUNC_SIG_VPTR wasm64, some arg, caller⟩,
         Event.executed ownerThreadId func (some arg),
         Event.signaled ⟨func, EM_FUNC_SIG_VPTR wasm64, some arg, caller⟩,
         Event.returned caller] := by
    simp [dotnet_sync_main_thread_arg, h, emscripten_sync_run_in_main_runtime_thread]
  refine ⟨⟨h1, ⟨s.trace.length + 1, s.trace.length + 3, by omega, ?_, ?_⟩⟩,
          ⟨h2, ⟨s.trace.length + 1, s.trace.length + 3, by omega, ?_, ?_⟩⟩⟩
  · rw [h1, getElem_append_offset]; rfl
  · rw [h1, getElem_append_offset]; rfl
  · rw [h2, getElem_append_offset]; rfl
  · rw [h2, getElem_append_offset]; rfl

theorem sync_from_worker_blocks_until_executed_witness :
    emscripten_is_main_browser_thread 1 = false ∧
    (((dotnet_sync_main_thread 1 2 ⟨[], []⟩).trace
        = [] ++
          [Event.enqueued ⟨2, .sig_v, none, 1⟩,
           Event.executed ownerThreadId 2 none,
           Event.signaled ⟨2, .sig_v, none, 1⟩,
           Event.returned 1] ∧
      (∃ i j : Nat, i < j ∧
        (dotnet_sync_main_thread 1 2 ⟨[], []⟩).trace[i]?
          = some (Event.executed ownerThreadId 2 none) ∧
        (dotnet_sync_main_thread 1 2 ⟨[], []⟩).trace[j]?
          = some (Event.returned 1))) ∧
     ((dotnet_sync_main_thread_arg false 1 2 7 ⟨[], []⟩).trace
        = [] ++
          [Event.enqueued ⟨2, EM_FUNC_SIG_VPTR false, some 7, 1⟩,
           Event.executed ownerThreadId 2 (some 7),
           Event.signaled ⟨2, EM_FUNC_SIG_VPTR false, some 7, 1⟩,
           Event.returned 1] ∧
      (∃ i j : Nat, i < j ∧
        (dotnet_sync_main_thread_arg false 1 2 7 ⟨[], []⟩).trace[i]?
          = some (Event.executed ownerThreadId 2 (some 7)) ∧
        (dotnet_sync_main_thread_arg false 1 2 7 ⟨[], []⟩).trace[j]?
          = some (Event.returned 1)))) :=
  ⟨rfl, sync_from_worker_blocks_until_executed false 1 2 7 ⟨[], []⟩ rfl⟩

/-- C3: `dotnet_async_run_in_main_runtime_thread` makes the same routing
decision as the sync variant — in place if the caller is the owner (main
browser) thread, enqueue otherwise — but a worker-thread caller never blocks:
the call returns immediately after appending the request to the owner
thread's run queue (the trace at return records only the enqueue and the
return, no execution), and once the owner thread has serviced its queue the
callable has executed on the owner thread with the exact argument passed. -/
theorem async_routes_and_never_blocks (wasm64 : Bool) (caller : ThreadId)
    (func : Nat) (arg : Int) (s : Sys) :
    (emscripten_is_main_browser_thread caller = true →
      (dotnet_async_run_in_main_runtime_thread wasm64 caller func arg s).queue
        = s.queue ∧
      (dotnet_async_run_in_main_runtime_thread wasm64 caller func arg s).trace
        = s.trace ++ [Event.executed caller func (some arg)]) ∧
    (emscripten_is_main_browser_thread caller = false →
      (dotnet_async_run_in_main_runtime_thread wasm64 caller func arg s).queue
        = s.queue ++ [⟨func, EM_FUNC_SIG_VPTR wasm64, some arg, caller⟩] ∧
      (dotnet_async_run_in_main_runtime_thread wasm64 caller func arg s).trace
        = s.trace ++
          [Event.enqueued ⟨func, EM_FUNC_SIG_VPTR wasm64, some arg, caller⟩,
           Event.returned caller] ∧
      Event.executed ownerThreadId func (some arg) ∈
        (serviceN
          (dotnet_async_run_in_main_runtime_thread wasm64 caller func arg s).queue.length
          (dotnet_async_run_in_main_runtime_thread wasm64 caller func arg s)).trace) := by
  constructor
  · intro h
    constructor <;> simp [dotnet_async_run_in_main_runtime_thread, h, callInPlace]
  · intro h
    have hq : (dotnet_async_run_in_main_runtime_thread wasm64 caller func arg s).queue
        = s.queue ++ [⟨func, EM_FUNC_SIG_VPTR wasm64, some arg, caller⟩] := by
      simp [dotnet_async_run_in_main_runtime_thread, h,
        emscripten_async_run_in_main_runtime_thread_prim]
    refine ⟨hq, ?_, ?_⟩
    · simp [dotnet_async_run_in_main_runtime_thread, h,
        emscripten_async_run_in_main_runtime_thread_prim]
    · have hmem : (⟨func, EM_FUNC_SIG_VPTR wasm64, some arg, caller⟩ : Request) ∈
          (dotnet_async_run_in_main_runtime_thread wasm64 caller func arg s).queue := by
        rw [hq]; simp
      exact serviceN_executes _ _ hmem

theorem async_routes_and_never_blocks_witness :
    emscripten_is_main_browser_thread 1 = false ∧
    ((dotnet_async_run_in_main_runtime_thread false 1 2 9 ⟨[], []⟩).queue
       = [] ++ [⟨2, EM_FUNC_SIG_VPTR false, some 9, 1⟩] ∧
     (dotnet_async_run_in_main_runtime_thread false 1 2 9 ⟨[], []⟩).trace
       = [] ++
         [Event.enqueued ⟨2, EM_FUNC_SIG_VPTR false, some 9, 1⟩,
          Event.returned 1] ∧
     Event.executed ownerThreadId 2 (some 9) ∈
       (serviceN
         (dotnet_async_run_in_main_runtime_thread false 1 2 9 ⟨[], []⟩).queue.length
         (dotnet_async_run_in_main_runtime_thread false 1 2 9 ⟨[], []⟩)).trace) :=
  ⟨rfl, (async_routes_and_never_blocks false 1 2 9 ⟨[], []⟩).2 rfl⟩

/-- C6: the dispatch payload is exactly one machine-pointer-sized integer —
the `EM_FUNC_SIG_VPTR` signature used for cross-thread dispatch carries an
argument of exactly `em_ptr_int_t`'s width (32 bits on wasm32, 64 bits on
wasm64) — and for every value `v` representable at that width, both the sync
and the async dispatch deliver exactly `v` to the callable executed on the
owner side, whether the call runs in place on the owner thread or crosses the
thread boundary. -/
theorem dispatch_arg_fidelity (wasm64 : Bool) (caller : ThreadId) (func : Nat)
    (v : Int) (s : Sys) (hv : emPtrIntInRange wasm64 v) :
    sigArgWidth (EM_FUNC_SIG_VPTR wasm64) = em_ptr_int_width wasm64 ∧
    (emscripten_is_main_browser_thread caller = true →
      Event.executed caller func (some v) ∈
        (dotnet_sync_main_thread_arg wasm64 caller func v s).trace ∧
      Event.executed caller func (some v) ∈
        (dotnet_async_run_in_main_runtime_thread wasm64 caller func v s).trace) ∧
    (emscripten_is_main_browser_thread caller = false →
      Event.executed ownerThreadId func (some v) ∈
        (dotnet_sync_main_thread_arg wasm64 caller func v s).trace ∧
      Event.executed ownerThreadId func (some v) ∈
        (serviceN
          (dotnet_async_run_in_main_runtime_thread wasm64 caller func v s).queue.length
          (dotnet_async_run_in_main_runtime_thread wasm64 caller func v s)).trace) := by
  refine ⟨?_, ?_, ?_⟩
  · cases wasm64 <;> rfl
  · intro h
    constructor <;>
      simp [dotnet_sync_main_thread_arg, dotnet_async_run_in_main_runtime_thread,
        h, callInPlace]
  · intro h
    constructor
    · simp [dotnet_sync_main_thread_arg, h,
        emscripten_sync_run_in_main_runtime_thread]
    · have hmem : (⟨func, EM_FUNC_SIG_VPTR wasm64, some v, caller⟩ : Request) ∈
          (dotnet_async_run_in_main_runtime_thread wasm64 caller func v s).queue := by
        simp [dotnet_async_run_in_main_runtime_thread, h,
          emscripten_async_run_in_main_runtime_thread_prim]
      exact serviceN_executes _ _ hmem

theorem dispatch_arg_fidelity_witness :
    emPtrIntInRange false 123456 ∧
    (sigArgWidth (EM_FUNC_SIG_VPTR false) = em_ptr_int_width false ∧
     (emscripten_is_main_browser_thread 3 = true →
       Event.executed 3 2 (some 123456) ∈
         (dotnet_sync_main_thread_arg false 3 2 123456 ⟨[], []⟩).trace ∧
       Event.executed 3 2 (some 123456) ∈
         (dotnet_async_run_in_main_runtime_thread false 3 2 123456 ⟨[], []⟩).trace) ∧
     (emscripten_is_main_browser_thread 3 = false →
       Event.executed ownerThreadId 2 (some 123456) ∈
         (dotnet_sync_main_thread_arg false 3 2 123456 ⟨[], []⟩).trace ∧
       Event.executed ownerThreadId 2 (some 123456) ∈
         (serviceN
           (dotnet_async_run_in_main_runtime_thread false 3 2 123456 ⟨[], []⟩).queue.length
           (dotnet_async_run_in_main_runtime_thread false 3 2 123456 ⟨[], []⟩)).trace)) :=
  ⟨by decide, dispatch_arg_fidelity false 3 2 123456 ⟨[], []⟩ (by decide)⟩

/-! ## Claim theorems: context affinity manager -/

theorem alookup_mem {α β : Type} [DecidableEq α] (l : List (α × β)) (k : α) (v : β)
    (h : alookup l k = some v) : (k, v) ∈ l := by
  induction l with
  | nil => simp [alookup] at h
  | cons p rest ih =>
      obtain ⟨k', w⟩ := p
      by_cases hk : k' = k
      · subst hk
        simp [alookup] at h
        simp [h]
      · simp [alookup, hk] at h
        exact List.mem_cons_of_mem _ (ih h)

/-- A WebGL environment with one canvas `"#canvas"` and no contexts yet, used
to replay the spec's two-worker make-current scenario. -/
def envC4 : WebEnv where
  canvases := [("#canvas", ⟨300, 150, 300, 150, false⟩)]
  contexts := []
  current := []
  nextHandle := 1
  dpr := 1
  visualViewportScale := none

/-- C4 counterexample: context currency is not exclusive.  Starting from
`envC4`, create a context (handle 1), make it current on worker thread 1,
then make the same handle current on worker thread 2: the second call
succeeds, yet `dotnet_webgl_get_current_context` on thread 1 still returns
handle 1 — the previous holder is not un-currented, and both threads have the
handle current at once. -/
theorem makeCurrent_not_exclusive :
    (dotnet_webgl_create_context "#canvas" 0 1 0 1 2 envC4).1 = 1 ∧
    (dotnet_webgl_make_context_current 1 1
      (dotnet_webgl_create_context "#canvas" 0 1 0 1 2 envC4).2).1 = 0 ∧
    (dotnet_webgl_make_context_current 2 1
      (dotnet_webgl_make_context_current 1 1
        (dotnet_webgl_create_context "#canvas" 0 1 0 1 2 envC4).2).2).1 = 0 ∧
    dotnet_webgl_get_current_context 2
      (dotnet_webgl_make_context_current 2 1
        (dotnet_webgl_make_context_current 1 1
          (dotnet_webgl_create_context "#canvas" 0 1 0 1 2 envC4).2).2).2 = 1 ∧
    dotnet_webgl_get_current_context 1
      (dotnet_webgl_make_context_current 2 1
        (dotnet_webgl_make_context_current 1 1
          (dotnet_webgl_create_context "#canvas" 0 1 0 1 2 envC4).2).2).2 = 1 := by
  decide

/-- C4 (amended): context currency is per-thread, not exclusive.  A
successful `dotnet_webgl_make_context_current(h)` on thread `t` makes
`dotnet_webgl_get_current_context` on `t` return `h`, and leaves every other
thread's current context unchanged — in particular it does not un-current the
handle from a previous holder. -/
theorem makeCurrent_per_thread_affinity (t t' : ThreadId) (h : Int) (env : WebEnv)
    (hsucc : (dotnet_webgl_make_context_current t h env).1 = 0)
    (hne : t' ≠ t) :
    dotnet_webgl_get_current_context t
      (dotnet_webgl_make_context_current t h env).2 = h ∧
    dotnet_webgl_get_current_context t'
      (dotnet_webgl_make_context_current t h env).2
      = dotnet_webgl_get_current_context t' env := by
  by_cases h0 : h = 0
  · subst h0
    constructor
    · simp [dotnet_webgl_make_context_current,
        emscripten_webgl_make_context_current_prim,
        dotnet_webgl_get_current_context,
        emscripten_webgl_get_current_context, alookup_aset]
    · simp [dotnet_webgl_make_context_current,
        emscripten_webgl_make_context_current_prim,
        dotnet_webgl_get_current_context,
        emscripten_webgl_get_current_context,
        alookup_aset_ne env.current t t' 0 (Ne.symm hne)]
  · cases hctx : alookup env.contexts h with
    | none =>
        exfalso
        simp [dotnet_webgl_make_context_current,
          emscripten_webgl_make_context_current_prim, h0, hctx,
          EMSCRIPTEN_RESULT_INVALID_PARAM] at hsucc
    | some ctx =>
        by_cases hc : emscripten_is_main_browser_thread t = true ∨
            ctx.attrs.proxyContextToMainThread ≠ ProxyMode.disallow
        · constructor
          · simp [dotnet_webgl_make_context_current,
              emscripten_webgl_make_context_current_prim, h0, hctx, hc,
              dotnet_webgl_get_current_context,
              emscripten_webgl_get_current_context, alookup_aset]
          · simp [dotnet_webgl_make_context_current,
              emscripten_webgl_make_context_current_prim, h0, hctx, hc,
              dotnet_webgl_get_current_context,
              emscripten_webgl_get_current_context,
              alookup_aset_ne env.current t t' h (Ne.symm hne)]
        · exfalso
          simp [dotnet_webgl_make_context_current,
            emscripten_webgl_make_context_current_prim, h0, hctx, hc,
            EMSCRIPTEN_RESULT_FAILED] at hsucc

theorem makeCurrent_per_thread_affinity_witness :
    (dotnet_webgl_make_context_current 2 1
      (dotnet_webgl_make_context_current 1 1
        (dotnet_webgl_create_context "#canvas" 0 1 0 1 2 envC4).2).2).1 = 0 ∧
    (1 : ThreadId) ≠ 2 ∧
    (dotnet_webgl_get_current_context 2
      (dotnet_webgl_make_context_current 2 1
        (dotnet_webgl_make_context_current 1 1
          (dotnet_webgl_create_context "#canvas" 0 1 0 1 2 envC4).2).2).2 = 1 ∧
     dotnet_webgl_get_current_context 1
      (dotnet_webgl_make_context_current 2 1
        (dotnet_webgl_make_context_current 1 1
          (dotnet_webgl_create_context "#canvas" 0 1 0 1 2 envC4).2).2).2
      = dotnet_webgl_get_current_context 1
          (dotnet_webgl_make_context_current 1 1
            (dotnet_webgl_create_context "#canvas" 0 1 0 1 2 envC4).2).2) :=
  ⟨by decide, by decide,
    makeCurrent_per_thread_affinity 2 1 1
      (dotnet_webgl_make_context_current 1 1
        (dotnet_webgl_create_context "#canvas" 0 1 0 1 2 envC4).2).2
      (by decide) (by decide)⟩

/-- C5: `dotnet_webgl_create_context` returns either a strictly positive
resource handle (on success) or a strictly negative error code (on failure)
— never 0 — and every context it creates is recorded with
`proxyContextToMainThread = EMSCRIPTEN_WEBGL_CONTEXT_PROXY_ALWAYS`, i.e. it
is marked as requiring cross-thread proxying for use from non-owner threads;
it never creates a context usable only natively on a worker thread. -/
theorem createContext_sign_and_proxy_marked (canvasId : String)
    (alpha depth stencil antialias majorVersion : Int) (env : WebEnv)
    (hnh : 1 ≤ env.nextHandle) :
    (0 < (dotnet_webgl_create_context canvasId alpha depth stencil antialias
            majorVersion env).1 ∨
     (dotnet_webgl_create_context canvasId alpha depth stencil antialias
            majorVersion env).1 < 0) ∧
    (0 < (dotnet_webgl_create_context canvasId alpha depth stencil antialias
            majorVersion env).1 →
      ∃ ctx,
        alookup (dotnet_webgl_create_context canvasId alpha depth stencil antialias
            majorVersion env).2.contexts
          (dotnet_webgl_create_context canvasId alpha depth stencil antialias
            majorVersion env).1 = some ctx ∧
        ctx.attrs.proxyContextToMainThread = ProxyMode.always) := by
  by_cases hmv : (dotnet_webgl_context_attrs alpha depth stencil antialias
      majorVersion).majorVersion < 1 ∨
      2 < (dotnet_webgl_context_attrs alpha depth stencil antialias
      majorVersion).majorVersion
  · have hval : dotnet_webgl_create_context canvasId alpha depth stencil antialias
        majorVersion env = (EMSCRIPTEN_RESULT_INVALID_PARAM, env) := by
      simp [dotnet_webgl_create_context, emscripten_webgl_create_context, hmv]
    rw [hval]
    refine ⟨Or.inr (by norm_num [EMSCRIPTEN_RESULT_INVALID_PARAM]), ?_⟩
    intro hpos
    norm_num [EMSCRIPTEN_RESULT_INVALID_PARAM] at hpos
  · cases hcv : alookup env.canvases canvasId with
    | none =>
        have hval : dotnet_webgl_create_context canvasId alpha depth stencil antialias
            majorVersion env = (EMSCRIPTEN_RESULT_UNKNOWN_TARGET, env) := by
          simp [dotnet_webgl_create_context, emscripten_webgl_create_context, hmv, hcv]
        rw [hval]
        refine ⟨Or.inr (by norm_num [EMSCRIPTEN_RESULT_UNKNOWN_TARGET]), ?_⟩
        intro hpos
        norm_num [EMSCRIPTEN_RESULT_UNKNOWN_TARGET] at hpos
    | some c =>
        have hval : dotnet_webgl_create_context canvasId alpha depth stencil antialias
            majorVersion env
            = (env.nextHandle,
               { env with
                   contexts := (env.nextHandle,
                     ⟨canvasId,
                      dotnet_webgl_context_attrs alpha depth stencil antialias majorVersion,
                      c.width, c.height⟩) :: env.contexts
                   nextHandle := env.nextHandle + 1 }) := by
          simp [dotnet_webgl_create_context, emscripten_webgl_create_context, hmv, hcv]
        rw [hval]
        refine ⟨Or.inl (by omega), ?_⟩
        intro _
        exact ⟨⟨canvasId,
                dotnet_webgl_context_attrs alpha depth stencil antialias majorVersion,
                c.width, c.height⟩, by simp [alookup], rfl⟩

/-- A WebGL environment with one canvas and no contexts, used to exercise
`dotnet_webgl_create_context`. -/
def envC5 : WebEnv where
  canvases := [("#canvas", ⟨300, 150, 300, 150, false⟩)]
  contexts := []
  current := []
  nextHandle := 1
  dpr := 1
  visualViewportScale := none

theorem createContext_sign_and_proxy_marked_witness :
    (1 : Int) ≤ envC5.nextHandle ∧
    ((0 < (dotnet_webgl_create_context "#canvas" 1 1 0 1 2 envC5).1 ∨
      (dotnet_webgl_create_context "#canvas" 1 1 0 1 2 envC5).1 < 0) ∧
     (0 < (dotnet_webgl_create_context "#canvas" 1 1 0 1 2 envC5).1 →
       ∃ ctx,
         alookup (dotnet_webgl_create_context "#canvas" 1 1 0 1 2 envC5).2.contexts
           (dotnet_webgl_create_context "#canvas" 1 1 0 1 2 envC5).1 = some ctx ∧
         ctx.attrs.proxyContextToMainThread = ProxyMode.always)) :=
  ⟨by decide, createContext_sign_and_proxy_marked "#canvas" 1 1 0 1 2 envC5 (by decide)⟩

/-- C9: for every input options record, `dotnet_webgl_create_context` fixes
the context attributes not exposed through its parameters to constants:
`minorVersion = 0`, `enableExtensionsByDefault = 1`,
`renderViaOffscreenBackBuffer = 0`, `explicitSwapControl = 0`,
`preserveDrawingBuffer = 1`, and
`proxyContextToMainThread = EMSCRIPTEN_WEBGL_CONTEXT_PROXY_ALWAYS`. -/
theorem createContext_fixed_attrs (alpha depth stencil antialias majorVersion : Int) :
    (dotnet_webgl_context_attrs alpha depth stencil antialias
        majorVersion).minorVersion = 0 ∧
    (dotnet_webgl_context_attrs alpha depth stencil antialias
        majorVersion).enableExtensionsByDefault = 1 ∧
    (dotnet_webgl_context_attrs alpha depth stencil antialias
        majorVersion).renderViaOffscreenBackBuffer = 0 ∧
    (dotnet_webgl_context_attrs alpha depth stencil antialias
        majorVersion).explicitSwapControl = 0 ∧
    (dotnet_webgl_context_attrs alpha depth stencil antialias
        majorVersion).preserveDrawingBuffer = 1 ∧
    (dotnet_webgl_context_attrs alpha depth stencil antialias
        majorVersion).proxyContextToMainThread = ProxyMode.always :=
  ⟨rfl, rfl, rfl, rfl, rfl, rfl⟩

/-- C7: for every nonzero handle, `dotnet_webgl_make_context_current` returns
0 on success and a strictly negative error code on failure; and — over the
contexts this program creates, which all support cross-thread proxying
(`proxyContextToMainThread = PROXY_ALWAYS`, see
`createContext_sign_and_proxy_marked`) — failure occurs exactly when the
handle is invalid (names no live context) or the named context's
configuration does not support cross-thread proxying. -/
theorem makeCurrent_result_and_failure_condition (t : ThreadId) (h : Int)
    (env : WebEnv) (h0 : h ≠ 0)
    (hprox : ∀ p ∈ env.contexts,
      p.2.attrs.proxyContextToMainThread ≠ ProxyMode.disallow) :
    ((dotnet_webgl_make_context_current t h env).1 = 0 ∨
     (dotnet_webgl_make_context_current t h env).1 < 0) ∧
    ((dotnet_webgl_make_context_current t h env).1 < 0 ↔
      (alookup env.contexts h = none ∨
       ∃ ctx, alookup env.contexts h = some ctx ∧
         ctx.attrs.proxyContextToMainThread = ProxyMode.disallow)) := by
  cases hctx : alookup env.contexts h with
  | none =>
      constructor
      · refine Or.inr ?_
        simp [dotnet_webgl_make_context_current,
          emscripten_webgl_make_context_current_prim, h0, hctx,
          EMSCRIPTEN_RESULT_INVALID_PARAM]
      · constructor
        · intro _; exact Or.inl rfl
        · intro _
          simp [dotnet_webgl_make_context_current,
            emscripten_webgl_make_context_current_prim, h0, hctx,
            EMSCRIPTEN_RESULT_INVALID_PARAM]
  | some ctx =>
      have hp : ctx.attrs.proxyContextToMainThread ≠ ProxyMode.disallow :=
        hprox (h, ctx) (alookup_mem env.contexts h ctx hctx)
      have hres : (dotnet_webgl_make_context_current t h env).1 = 0 := by
        simp [dotnet_webgl_make_context_current,
          emscripten_webgl_make_context_current_prim, h0, hctx, hp,
          EMSCRIPTEN_RESULT_SUCCESS]
      constructor
      · exact Or.inl hres
      · constructor
        · intro hlt
          rw [hres] at hlt
          exact absurd hlt (by decide)
        · intro hbad
          rcases hbad with hnone | ⟨ctx', hctx', hdis⟩
          · cases hnone
          · injection hctx' with hcc
            subst hcc
            exact absurd hdis hp

/-- A WebGL environment whose single context was produced by
`dotnet_webgl_create_context`, used to exercise
`dotnet_webgl_make_context_current`. -/
def envC7 : WebEnv :=
  (dotnet_webgl_create_context "#canvas" 1 1 0 1 2
    { canvases := [("#canvas", ⟨300, 150, 300, 150, false⟩)]
      contexts := []
      current := []
      nextHandle := 1
      dpr := 1
      visualViewportScale := none }).2

theorem makeCurrent_result_and_failure_condition_witness :
    (7 : Int) ≠ 0 ∧
    (∀ p ∈ envC7.contexts,
      p.2.attrs.proxyContextToMainThread ≠ ProxyMode.disallow) ∧
    (((dotnet_webgl_make_context_current 2 7 envC7).1 = 0 ∨
      (dotnet_webgl_make_context_current 2 7 envC7).1 < 0) ∧
     ((dotnet_webgl_make_context_current 2 7 envC7).1 < 0 ↔
       (alookup envC7.contexts 7 = none ∨
        ∃ ctx, alookup envC7.contexts 7 = some ctx ∧
          ctx.attrs.proxyContextToMainThread = ProxyMode.disallow))) :=
  ⟨by decide, by decide,
    makeCurrent_result_and_failure_condition 2 7 envC7 (by decide) (by decide)⟩

/-- C8: for a selector that names an existing canvas, `dotnet_set_canvas_size`
sets that canvas's backing store to `w × h` (clearing its contents as a side
effect), and a context created immediately afterwards for the same selector
(with a supported WebGL major version) succeeds and records a `w × h` backing
surface. -/
theorem resize_then_create_reflects_size (env : WebEnv) (canvasId : String)
    (w h alpha depth stencil antialias majorVersion : Int) (c : Canvas)
    (hc : alookup env.canvases canvasId = some c)
    (hnh : 1 ≤ env.nextHandle)
    (hm1 : 1 ≤ majorVersion) (hm2 : majorVersion ≤ 2) :
    (∃ c1, alookup (dotnet_set_canvas_size canvasId w h env).canvases canvasId
        = some c1 ∧
      c1.width = w ∧ c1.height = h ∧ c1.contentCleared = true) ∧
    0 < (dotnet_webgl_create_context canvasId alpha depth stencil antialias
          majorVersion (dotnet_set_canvas_size canvasId w h env)).1 ∧
    (∃ ctx,
      alookup (dotnet_webgl_create_context canvasId alpha depth stencil antialias
          majorVersion (dotnet_set_canvas_size canvasId w h env)).2.contexts
        (dotnet_webgl_create_context canvasId alpha depth stencil antialias
          majorVersion (dotnet_set_canvas_size canvasId w h env)).1 = some ctx ∧
      ctx.backingWidth = w ∧ ctx.backingHeight = h) := by
  have henv1 : dotnet_set_canvas_size canvasId w h env
      = { env with
            canvases := aset env.canvases canvasId
              ⟨w, h, (w : Rat) / devicePixelScale env,
               (h : Rat) / devicePixelScale env, true⟩ } := by
    simp [dotnet_set_canvas_size, dotnet_set_canvas_size_js, hc]
  have hlook : alookup (dotnet_set_canvas_size canvasId w h env).canvases canvasId
      = some ⟨w, h, (w : Rat) / devicePixelScale env,
              (h : Rat) / devicePixelScale env, true⟩ := by
    rw [henv1]
    exact alookup_aset env.canvases canvasId _
  have hmv : ¬((dotnet_webgl_context_attrs alpha depth stencil antialias
      majorVersion).majorVersion < 1 ∨
      2 < (dotnet_webgl_context_attrs alpha depth stencil antialias
      majorVersion).majorVersion) := by
    simp only [dotnet_webgl_context_attrs]
    omega
  have hval : dotnet_webgl_create_context canvasId alpha depth stencil antialias
      majorVersion (dotnet_set_canvas_size canvasId w h env)
      = ((dotnet_set_canvas_size canvasId w h env).nextHandle,
         { dotnet_set_canvas_size canvasId w h env with
             contexts := ((dotnet_set_canvas_size canvasId w h env).nextHandle,
               ⟨canvasId,
                dotnet_webgl_context_attrs alpha depth stencil antialias majorVersion,
                w, h⟩) :: (dotnet_set_canvas_size canvasId w h env).contexts
             nextHandle := (dotnet_set_canvas_size canvasId w h env).nextHandle + 1 }) := by
    simp [dotnet_webgl_create_context, emscripten_webgl_create_context, hmv, hlook]
  have hnh1 : (dotnet_set_canvas_size canvasId w h env).nextHandle = env.nextHandle := by
    rw [henv1]
  refine ⟨⟨_, hlook, rfl, rfl, rfl⟩, ?_, ?_⟩
  · rw [hval]
    simp only [hnh1]
    omega
  · rw [hval]
    exact ⟨⟨canvasId,
            dotnet_webgl_context_attrs alpha depth stencil antialias majorVersion,
            w, h⟩, by simp [alookup], rfl, rfl⟩

/-- A WebGL environment with one canvas, used to exercise
`dotnet_set_canvas_size` followed by `dotnet_webgl_create_context`. -/
def envC8 : WebEnv where
  canvases := [("#canvas", ⟨300, 150, 300, 150, false⟩)]
  contexts := []
  current := []
  nextHandle := 1
  dpr := 2
  visualViewportScale := none

theorem resize_then_create_reflects_size_witness :
    alookup envC8.canvases "#canvas" = some ⟨300, 150, 300, 150, false⟩ ∧
    (1 : Int) ≤ envC8.nextHandle ∧
    (1 : Int) ≤ 2 ∧ (2 : Int) ≤ 2 ∧
    ((∃ c1, alookup (dotnet_set_canvas_size "#canvas" 800 600 envC8).canvases "#canvas"
        = some c1 ∧
      c1.width = 800 ∧ c1.height = 600 ∧ c1.contentCleared = true) ∧
     0 < (dotnet_webgl_create_context "#canvas" 1 1 0 1 2
           (dotnet_set_canvas_size "#canvas" 800 600 envC8)).1 ∧
     (∃ ctx,
       alookup (dotnet_webgl_create_context "#canvas" 1 1 0 1 2
           (dotnet_set_canvas_size "#canvas" 800 600 envC8)).2.contexts
         (dotnet_webgl_create_context "#canvas" 1 1 0 1 2
           (dotnet_set_canvas_size "#canvas" 800 600 envC8)).1 = some ctx ∧
       ctx.backingWidth = 800 ∧ ctx.backingHeight = 600)) :=
  ⟨by decide, by decide, by decide, by decide,
    resize_then_create_reflects_size envC8 "#canvas" 800 600 1 1 0 1 2
      ⟨300, 150, 300, 150, false⟩ (by decide) (by decide) (by decide) (by decide)⟩

/-- C10: for a selector that matches no canvas, `dotnet_set_canvas_size` (and
the underlying `dotnet_set_canvas_size_js`) is a silent no-op: the
environment is returned unchanged — no surface is mutated — and the function
returns normally with no error indication (its result carries no error
channel at all). -/
theorem setCanvasSize_unknown_selector_noop (canvasId : String) (w h : Int)
    (env : WebEnv) (habs : alookup env.canvases canvasId = none) :
    dotnet_set_canvas_size canvasId w h env = env ∧
    dotnet_set_canvas_size_js canvasId w h env = env := by
  have hjs : dotnet_set_canvas_size_js canvasId w h env = env := by
    simp [dotnet_set_canvas_size_js, habs]
  exact ⟨hjs, hjs⟩

/-- A WebGL environment with one canvas, used to exercise
`dotnet_set_canvas_size` against a selector that matches nothing. -/
def envC10 : WebEnv where
  canvases := [("#canvas", ⟨300, 150, 300, 150, false⟩)]
  contexts := []
  current := []
  nextHandle := 1
  dpr := 1
  visualViewportScale := none

theorem setCanvasSize_unknown_selector_noop_witness :
    alookup envC10.canvases "#missing" = none ∧
    (dotnet_set_canvas_size "#missing" 800 600 envC10 = envC10 ∧
     dotnet_set_canvas_size_js "#missing" 800 600 envC10 = envC10) :=
  ⟨by decide, setCanvasSize_unknown_selector_noop "#missing" 800 600 envC10 (by decide)⟩
